import Mathlib

/-!
Shallow embedding of `src/main.py` of the slack_rection_to repository:
a Slack bot that, on a configured reaction, fetches the reacted-to message,
summarizes it into a title via an LLM, and creates a Linear issue.

External effects (thread replies, Slack history fetches, LLM invocations,
HTTP POSTs to the Linear GraphQL endpoint, logger calls) are recorded in an
ordered trace.  External collaborators (Slack transport, LLM, Linear HTTP
transport) are parameters of an `Env` record.  Python exceptions are
modelled with `PyResult`; a value of Python type `T | None` is modelled as
`Option T`.
-/

namespace SlackReactionTo

/-- Log severities used by the program. -/
inductive LogLevel
  | debug
  | info
  | warning
  | error
deriving DecidableEq

/-- The three GraphQL request shapes the Linear client can POST. -/
inductive PostKind
  | teamsQuery
  | workflowStatesQuery
  | issueCreateMutation
deriving DecidableEq

/-- One observable action of the program, in execution order. -/
inductive Call
  | say : String → Call
  | fetchHistory : Call
  | llmRun : Call
  | post : PostKind → Call
  | log : LogLevel → String → Call
deriving DecidableEq

/-- Result of running a piece of Python code: a value, or a raised exception
(identified by its class name). -/
inductive PyResult (α : Type)
  | ok : α → PyResult α
  | exn : String → PyResult α
deriving DecidableEq

/-- One node of the `teams(filter: ...)` GraphQL query response. -/
structure TeamNode where
  id : String
  name : String
deriving DecidableEq

/-- Shape of the JSON body returned for the teams query: whether the "data"
key is present, whether "teams" is present under it, and the node list. -/
structure TeamsPayload where
  hasData : Bool
  hasTeams : Bool
  nodes : List TeamNode
deriving DecidableEq

/-- HTTP response for the teams query. -/
structure TeamsResponse where
  status : Nat
  payload : TeamsPayload
  text : String
deriving DecidableEq

/-- One node of the `workflowStates` GraphQL query response. -/
structure StateNode where
  id : String
  name : String
deriving DecidableEq

/-- HTTP response for the workflowStates query. -/
structure StatesResponse where
  status : Nat
  nodes : List StateNode
  text : String
deriving DecidableEq

/-- The nested `issueCreate.issue` record of a successful mutation. -/
structure IssueRecord where
  id : String
  title : String
  description : String
deriving DecidableEq

/-- Shape of the JSON body returned for the issueCreate mutation: presence
of "data" and "issueCreate" keys, and the (possibly null) "issue" value. -/
structure IssuePayload where
  hasData : Bool
  hasIssueCreate : Bool
  issue : Option IssueRecord
deriving DecidableEq

/-- HTTP response for the issueCreate mutation. -/
structure IssueResponse where
  status : Nat
  payload : IssuePayload
  text : String
deriving DecidableEq

/-- A Slack message as returned by `conversations_history` (only the field
the program reads). -/
structure SlackMessage where
  text : String
deriving DecidableEq

/-- The `Issue` dataclass of main.py. -/
structure Issue where
  id : String
  title : String
  description : String
deriving DecidableEq

/-- One entry of the `reaction_mentions` list of config.yaml.  The handler
reads the keys "reaction", "mention" and "team_id". -/
structure Rule where
  reaction : String
  mention : String
  team_id : String
deriving DecidableEq

/-- The loaded configuration, restricted to the key the reaction handler
iterates over. -/
structure Config where
  reaction_mentions : List Rule
deriving DecidableEq

/-- The fields of a `reaction_added` Slack event that the handler reads. -/
structure ReactionEvent where
  reaction_name : String
  user : String
  channel : String
  message_ts : String
  event_ts : String
deriving DecidableEq

/-- The external world: the DEBUG environment variable and the behaviour of
each external collaborator.  Transport responses are functions of the
request data; the Slack history fetch and the LLM run may raise. -/
structure Env where
  debug : String
  conversations_history : String → String → PyResult (List SlackMessage)
  agentRun : String → PyResult String
  teamsResp : String → TeamsResponse
  statesResp : StatesResponse
  issueResp : Option String → String → String → IssueResponse

/-- Linear.get_uuid_for_team: POSTs the teams query; on HTTP 200 with a
payload containing "data" and "teams", returns the first node id if the
node list is non-empty.  Every other case falls off the end of the Python
method, returning None with no logging. -/
def get_uuid_for_team (env : Env) (team_name : String) :
    List Call × Option String :=
  let response := env.teamsResp team_name
  ([Call.post PostKind.teamsQuery],
    if response.status = 200 then
      if response.payload.hasData && response.payload.hasTeams then
        match response.payload.nodes with
        | [] => none
        | t :: _ => some t.id
      else none
    else none)

/-- Linear.get_state_id_by_name: POSTs the workflowStates query; on HTTP 200
scans the nodes case-insensitively for the given name, logging an error when
no node matches; on a non-200 status logs an error.  Returns the matching id
or None. -/
def get_state_id_by_name (env : Env) (st : String) :
    List Call × Option String :=
  let response := env.statesResp
  if response.status = 200 then
    match response.nodes.find? (fun s => s.name.toLower == st.toLower) with
    | some s => ([Call.post PostKind.workflowStatesQuery], some s.id)
    | none =>
        ([Call.post PostKind.workflowStatesQuery,
          Call.log LogLevel.error ("State " ++ st ++ " not found in the response.")],
         none)
  else
    ([Call.post PostKind.workflowStatesQuery,
      Call.log LogLevel.error
        ("Failed to fetch states: " ++ toString response.status ++ " - " ++ response.text)],
     none)

/-- Binding of the global name `state_name` that `create_issue` evaluates in
the call `self.get_state_id_by_name(state_name)`: no assignment to
`state_name` exists anywhere in main.py, so Python name resolution finds
nothing and raises NameError at that point. -/
def state_name_binding : Option String := none

/-- Linear.create_issue: evaluates the unbound global `state_name` before
anything else effectful, so every call raises NameError before the mutation
POST.  The remaining branch transcribes the unreachable rest of the method:
POST the issueCreate mutation; on HTTP 200 with "data" and "issueCreate"
present return the nested issue value, otherwise log an error and return
None. -/
def create_issue (env : Env) (team_id : Option String)
    (title description : String) : List Call × PyResult (Option IssueRecord) :=
  match state_name_binding with
  | none => ([], PyResult.exn "NameError")
  | some st =>
      let stateCall := get_state_id_by_name env st
      let response := env.issueResp team_id title description
      let tr := stateCall.1 ++ [Call.post PostKind.issueCreateMutation]
      if response.status = 200 then
        if response.payload.hasData && response.payload.hasIssueCreate then
          (tr, PyResult.ok response.payload.issue)
        else
          (tr ++ [Call.log LogLevel.error
            "Error: Invalid response data or missing data or issueCreate."],
           PyResult.ok none)
      else
        (tr ++ [Call.log LogLevel.error
          ("Failed to create issue: " ++ toString response.status ++ " - " ++ response.text)],
         PyResult.ok none)

/-- The llm function: logs the received body, runs the agent synchronously
(no exception handling, so a raise propagates to the caller), then logs and
wraps the output in an Issue with empty id and the original body as
description.  Its annotated return type is `Issue | None`, modelled as
`Option Issue`; the code itself only ever produces `some`. -/
def llm (env : Env) (body : String) : List Call × PyResult (Option Issue) :=
  let tr := [Call.log LogLevel.info ("Received body: " ++ body), Call.llmRun]
  match env.agentRun body with
  | PyResult.exn e => (tr, PyResult.exn e)
  | PyResult.ok out =>
      (tr ++ [Call.log LogLevel.info ("Generating issue title with body: " ++ out)],
       PyResult.ok (some { id := "", title := out, description := body }))

/-- Thread reply acknowledging a matched rule. -/
def ackText (rule : Rule) : String := rule.mention ++ " やります！"

/-- Thread reply of the broad except handler around the try block. -/
def fetchFailText : String := "メッセージの取得に失敗しました。"

/-- Thread reply when llm returns a falsy value. -/
def titleFailText : String := "Issueのタイトルを生成できませんでした。"

/-- Thread reply when create_issue returns a falsy value. -/
def createFailText : String := "Issueの作成に失敗しました。"

/-- Thread reply on successful issue creation, with the Linear web URL. -/
def successText (rec : IssueRecord) : String :=
  "新しいIssueが作成されました: " ++ rec.title ++
    " (URL: https://linear.app/ivry/issue/" ++ rec.id ++ ")"

/-- The `try` block of reaction_handler (lines 243-297): fetch the message
at the reaction timestamp; on an empty result log a warning and return; run
llm on the text; on a falsy result reply and return; in DEBUG mode log the
draft title and stop, otherwise resolve the team id and create the issue,
replying with success or failure.  Returns the trace of the block together
with the exception that escaped it, if any. -/
def tryBody (env : Env) (ev : ReactionEvent) (rule : Rule) :
    List Call × Option String :=
  match env.conversations_history ev.channel ev.message_ts with
  | PyResult.exn e => ([Call.fetchHistory], some e)
  | PyResult.ok messages =>
    match messages with
    | [] =>
        ([Call.fetchHistory,
          Call.log LogLevel.warning "No messages found for this timestamp."], none)
    | message :: _ =>
      let message_text := message.text
      let llmCall := llm env message_text
      let tr := Call.fetchHistory :: llmCall.1
      match llmCall.2 with
      | PyResult.exn e => (tr, some e)
      | PyResult.ok none =>
          (tr ++ [Call.say titleFailText, Call.log LogLevel.error titleFailText], none)
      | PyResult.ok (some issue) =>
        let title := issue.title
        let description := issue.description
        if env.debug = "true" then
          (tr ++ [Call.log LogLevel.debug ("Creating issue with title: " ++ title)], none)
        else
          let teamCall := get_uuid_for_team env rule.team_id
          let createCall := create_issue env teamCall.2 title description
          let tr₂ := tr ++ teamCall.1 ++ createCall.1
          match createCall.2 with
          | PyResult.exn e => (tr₂, some e)
          | PyResult.ok (some rec) =>
              (tr₂ ++ [Call.say (successText rec),
                Call.log LogLevel.info
                  ("Issueが作成されました: " ++ rec.title ++ " (ID: " ++ rec.id ++ ")")],
               none)
          | PyResult.ok none =>
              (tr₂ ++ [Call.say createFailText, Call.log LogLevel.error createFailText],
               none)

/-- The info log emitted when a rule matches. -/
def matchedLog (ev : ReactionEvent) : Call :=
  Call.log LogLevel.info ("マッチしたリアクション: " ++ ev.reaction_name)

/-- The debug log emitted at the top of reaction_handler. -/
def reactionAddedLog (ev : ReactionEvent) : Call :=
  Call.log LogLevel.debug
    ("Reaction added: " ++ ev.reaction_name ++ " by user " ++ ev.user ++
      " in channel " ++ ev.channel)

/-- Processing of the first matching rule: log the match, reply the
acknowledgement in-thread, then run the try block; an exception escaping it
is caught by the broad `except Exception` handler, which logs the error and
replies that message retrieval failed. -/
def processRule (env : Env) (ev : ReactionEvent) (rule : Rule) : List Call :=
  let hd := [matchedLog ev, Call.say (ackText rule)]
  match tryBody env ev rule with
  | (tr, none) => hd ++ tr
  | (tr, some e) =>
      hd ++ tr ++ [Call.log LogLevel.error ("Error retrieving message: " ++ e),
                   Call.say fetchFailText]

/-- The rule test of line 238: the entry's reaction equals the event's
reaction name and its mention equals "<@" ++ user ++ ">", both by exact
case-sensitive string comparison. -/
def matchesRule (ev : ReactionEvent) (r : Rule) : Bool :=
  r.reaction == ev.reaction_name && r.mention == "<@" ++ ev.user ++ ">"

/-- The inner `for value in v` loop: scan the rules in configured order,
process the first match and break; fall through with no action when no rule
matches. -/
def handleRules (env : Env) (ev : ReactionEvent) : List Rule → List Call
  | [] => []
  | r :: rest =>
      if matchesRule ev r then processRule env ev r else handleRules env ev rest

/-- The reaction_added handler: a debug log of the event, then the scan of
config["reaction_mentions"]. -/
def reaction_handler (cfg : Config) (env : Env) (ev : ReactionEvent) : List Call :=
  reactionAddedLog ev :: handleRules env ev cfg.reaction_mentions

/-- The rule reaction_handler selects, as the spec describes the Rule
Matcher: the first rule in configured order passing the line-238 test. -/
def selected_rule (cfg : Config) (ev : ReactionEvent) : Option Rule :=
  cfg.reaction_mentions.find? (matchesRule ev)

/-- Projection of a trace to the thread replies, in order. -/
def sayTexts (tr : List Call) : List String :=
  tr.filterMap (fun c => match c with | Call.say s => some s | _ => none)

/-- Projection of a trace to the Linear HTTP POSTs, in order. -/
def posts (tr : List Call) : List PostKind :=
  tr.filterMap (fun c => match c with | Call.post p => some p | _ => none)

/-- Projection of a trace to the error-level log messages, in order. -/
def errorLogs (tr : List Call) : List String :=
  tr.filterMap (fun c => match c with | Call.log LogLevel.error s => some s | _ => none)

/-- Projection of a trace to the warning-level log messages, in order. -/
def warningLogs (tr : List Call) : List String :=
  tr.filterMap (fun c => match c with | Call.log LogLevel.warning s => some s | _ => none)

/-- The external calls of a trace: everything except logging. -/
def externals (tr : List Call) : List Call :=
  tr.filter (fun c => match c with | Call.log _ _ => false | _ => true)

/-- The logging clause of the spec sentence on resolve_team, as stated:
every non-success transport response makes get_uuid_for_team emit an
error-level log. -/
def teams_nonsuccess_logged : Prop :=
  ∀ (env : Env) (tn : String),
    (env.teamsResp tn).status ≠ 200 → errorLogs (get_uuid_for_team env tn).1 ≠ []

/-!  Concrete data used to instantiate the theorems below. -/

/-- A concrete reacted-to message. -/
def msgLogin : SlackMessage := ⟨"fix the login bug"⟩

/-- A concrete team node returned by the teams query. -/
def backendNode : TeamNode := ⟨"team-uuid-1", "Backend"⟩

/-- A 200 teams response with one matching team. -/
def teamsRespBackend : TeamsResponse := ⟨200, ⟨true, true, [backendNode]⟩, "ok"⟩

/-- A 500 teams response. -/
def teamsRespDown : TeamsResponse := ⟨500, ⟨false, false, []⟩, "server error"⟩

/-- A 200 workflowStates response. -/
def statesRespOk : StatesResponse := ⟨200, [⟨"state-uuid-1", "Todo"⟩], "ok"⟩

/-- A 200 issueCreate response with a populated issue. -/
def issueRespOk : IssueResponse :=
  ⟨200, ⟨true, true, some ⟨"abc-123", "Fix login bug", "fix the login bug"⟩⟩, "ok"⟩

/-- A run where every collaborator behaves: the fetch returns one message,
the LLM produces a title, the teams query resolves, DEBUG is "false". -/
def baseEnv : Env where
  debug := "false"
  conversations_history := fun _ _ => PyResult.ok [msgLogin]
  agentRun := fun _ => PyResult.ok "Fix login bug"
  teamsResp := fun _ => teamsRespBackend
  statesResp := statesRespOk
  issueResp := fun _ _ _ => issueRespOk

/-- baseEnv with the teams query failing with HTTP 500. -/
def envNoTeam : Env := { baseEnv with teamsResp := fun _ => teamsRespDown }

/-- baseEnv with the summarization capability raising. -/
def envSummFail : Env :=
  { baseEnv with agentRun := fun _ => PyResult.exn "SummarizerError" }

/-- baseEnv in dry-run mode (DEBUG=true). -/
def envDry : Env := { baseEnv with debug := "true" }

/-- baseEnv with the history fetch returning zero messages. -/
def envEmptyFetch : Env :=
  { baseEnv with conversations_history := fun _ _ => PyResult.ok [] }

/-- A configured rule: reaction "eyes" by mentioned user U1 files to team
Backend. -/
def ruleEyes : Rule := ⟨"eyes", "<@U1>", "Backend"⟩

/-- A second rule with the same (reaction, mention) but a different team. -/
def ruleEyesFrontend : Rule := ⟨"eyes", "<@U1>", "Frontend"⟩

/-- A configuration with the single rule ruleEyes. -/
def cfgOne : Config := ⟨[ruleEyes]⟩

/-- An event matching ruleEyes. -/
def evEyes : ReactionEvent := ⟨"eyes", "U1", "C1", "111.222", "111.333"⟩

/-- An event matching no configured rule. -/
def evOther : ReactionEvent := ⟨"thumbsup", "U2", "C1", "111.222", "111.333"⟩

/-!  Helper lemmas. -/

/-- The rule loop is first-match-wins: it behaves as find? followed by
processing of the result. -/
theorem handleRules_eq_selected (env : Env) (ev : ReactionEvent) (rules : List Rule) :
    handleRules env ev rules =
      (rules.find? (matchesRule ev)).elim [] (processRule env ev) := by
  induction rules with
  | nil => rfl
  | cons r rest ih =>
      by_cases h : matchesRule ev r
      · simp [handleRules, h, List.find?_cons_of_pos _ h]
      · rw [List.find?_cons_of_neg _ h]
        simp only [handleRules, if_neg h]
        exact ih

/-- The full trace of a matched run outside dry-run mode whose fetch and
summarization succeed: the team query is POSTed, then create_issue raises
NameError, caught by the broad handler. -/
theorem trace_nondry (cfg : Config) (env : Env) (ev : ReactionEvent) (r : Rule)
    (m : SlackMessage) (rest : List SlackMessage) (out : String)
    (hsel : selected_rule cfg ev = some r)
    (hdbg : env.debug ≠ "true")
    (hfetch : env.conversations_history ev.channel ev.message_ts = PyResult.ok (m :: rest))
    (hllm : env.agentRun m.text = PyResult.ok out) :
    reaction_handler cfg env ev =
      [reactionAddedLog ev, matchedLog ev, Call.say (ackText r), Call.fetchHistory,
       Call.log LogLevel.info ("Received body: " ++ m.text), Call.llmRun,
       Call.log LogLevel.info ("Generating issue title with body: " ++ out),
       Call.post PostKind.teamsQuery,
       Call.log LogLevel.error ("Error retrieving message: " ++ "NameError"),
       Call.say fetchFailText] := by
  unfold selected_rule at hsel
  unfold reaction_handler
  rw [handleRules_eq_selected, hsel]
  simp only [Option.elim, processRule, tryBody, hfetch, llm, hllm,
    create_issue, state_name_binding, get_uuid_for_team, if_neg hdbg]
  rfl

/-- The full trace of a matched dry-run whose fetch and summarization
succeed: it ends with the debug log of the draft title. -/
theorem trace_dry (cfg : Config) (env : Env) (ev : ReactionEvent) (r : Rule)
    (m : SlackMessage) (rest : List SlackMessage) (out : String)
    (hsel : selected_rule cfg ev = some r)
    (hdbg : env.debug = "true")
    (hfetch : env.conversations_history ev.channel ev.message_ts = PyResult.ok (m :: rest))
    (hllm : env.agentRun m.text = PyResult.ok out) :
    reaction_handler cfg env ev =
      [reactionAddedLog ev, matchedLog ev, Call.say (ackText r), Call.fetchHistory,
       Call.log LogLevel.info ("Received body: " ++ m.text), Call.llmRun,
       Call.log LogLevel.info ("Generating issue title with body: " ++ out),
       Call.log LogLevel.debug ("Creating issue with title: " ++ out)] := by
  unfold selected_rule at hsel
  unfold reaction_handler
  rw [handleRules_eq_selected, hsel]
  simp only [Option.elim, processRule, tryBody, hfetch, llm, hllm, if_pos hdbg]
  rfl

/-- The full trace of a matched run whose fetch returns zero messages: a
warning log, then silence. -/
theorem trace_empty_fetch (cfg : Config) (env : Env) (ev : ReactionEvent) (r : Rule)
    (hsel : selected_rule cfg ev = some r)
    (hfetch : env.conversations_history ev.channel ev.message_ts = PyResult.ok []) :
    reaction_handler cfg env ev =
      [reactionAddedLog ev, matchedLog ev, Call.say (ackText r), Call.fetchHistory,
       Call.log LogLevel.warning "No messages found for this timestamp."] := by
  unfold selected_rule at hsel
  unfold reaction_handler
  rw [handleRules_eq_selected, hsel]
  simp only [Option.elim, processRule, tryBody, hfetch]
  rfl

/-!  Claims. -/

/-- C1: Outside dry-run mode, every call to Linear.create_issue raises a
NameError when evaluating get_state_id_by_name(state_name) — state_name is
unbound — before the issue-creation HTTP POST is sent; no issueCreate
mutation request is ever issued, and in the orchestrator the exception is
caught by the broad handler, which replies with the message-retrieval
failure text rather than the issue-creation failure text. -/
theorem c1_create_issue_raises_name_error (cfg : Config) (env : Env)
    (ev : ReactionEvent) (r : Rule) (m : SlackMessage) (rest : List SlackMessage)
    (out : String)
    (hsel : selected_rule cfg ev = some r)
    (hdbg : env.debug ≠ "true")
    (hfetch : env.conversations_history ev.channel ev.message_ts = PyResult.ok (m :: rest))
    (hllm : env.agentRun m.text = PyResult.ok out) :
    create_issue env (get_uuid_for_team env r.team_id).2 out m.text
        = ([], PyResult.exn "NameError")
      ∧ Call.post PostKind.issueCreateMutation ∉ reaction_handler cfg env ev
      ∧ sayTexts (reaction_handler cfg env ev) = [ackText r, fetchFailText] := by
  have h := trace_nondry cfg env ev r m rest out hsel hdbg hfetch hllm
  refine ⟨rfl, ?_, ?_⟩
  · rw [h]
    simp [reactionAddedLog, matchedLog]
  · rw [h]
    simp [sayTexts, reactionAddedLog, matchedLog]

/-- Witness for C1 at a concrete configuration, event and environment. -/
theorem c1_witness :
    selected_rule cfgOne evEyes = some ruleEyes
    ∧ baseEnv.debug ≠ "true"
    ∧ baseEnv.conversations_history evEyes.channel evEyes.message_ts
        = PyResult.ok [msgLogin]
    ∧ baseEnv.agentRun msgLogin.text = PyResult.ok "Fix login bug"
    ∧ sayTexts (reaction_handler cfgOne baseEnv evEyes)
        = [ackText ruleEyes, fetchFailText] :=
  ⟨by decide, by decide, rfl, rfl,
    (c1_create_issue_raises_name_error cfgOne baseEnv evEyes ruleEyes msgLogin []
      "Fix login bug" (by decide) (by decide) rfl rfl).2.2⟩

/-- C2: In every pipeline run in which team-name resolution returns an
absent result, the issueCreate mutation is not attempted and nothing but the
acknowledgement and the terminal failure reply reaches the thread, so no
partial state is reported as created on the tracker side. -/
theorem c2_absent_team_no_mutation (cfg : Config) (env : Env)
    (ev : ReactionEvent) (r : Rule) (m : SlackMessage) (rest : List SlackMessage)
    (out : String)
    (hsel : selected_rule cfg ev = some r)
    (hdbg : env.debug ≠ "true")
    (hfetch : env.conversations_history ev.channel ev.message_ts = PyResult.ok (m :: rest))
    (hllm : env.agentRun m.text = PyResult.ok out)
    (_hteam : (get_uuid_for_team env r.team_id).2 = none) :
    Call.post PostKind.issueCreateMutation ∉ reaction_handler cfg env ev
      ∧ sayTexts (reaction_handler cfg env ev) = [ackText r, fetchFailText] := by
  have h := trace_nondry cfg env ev r m rest out hsel hdbg hfetch hllm
  constructor
  · rw [h]
    simp [reactionAddedLog, matchedLog]
  · rw [h]
    simp [sayTexts, reactionAddedLog, matchedLog]

/-- Witness for C2: the teams query answers HTTP 500, so resolution is
absent, and no mutation POST appears in the run's trace. -/
theorem c2_witness :
    selected_rule cfgOne evEyes = some ruleEyes
    ∧ (get_uuid_for_team envNoTeam ruleEyes.team_id).2 = none
    ∧ Call.post PostKind.issueCreateMutation ∉ reaction_handler cfgOne envNoTeam evEyes :=
  ⟨by decide, rfl,
    (c2_absent_team_no_mutation cfgOne envNoTeam evEyes ruleEyes msgLogin []
      "Fix login bug" (by decide) (by decide) rfl rfl rfl).1⟩

/-- C3 evidence: when the summarization capability raises, llm does not
return a null result — the exception propagates — and the thread receives
the message-retrieval failure reply, not the could-not-generate-title
reply; no tracker POST occurs. -/
theorem c3_summarizer_raise_propagates :
    (llm envSummFail "fix the login bug").2 = PyResult.exn "SummarizerError"
    ∧ sayTexts (reaction_handler cfgOne envSummFail evEyes)
        = [ackText ruleEyes, fetchFailText]
    ∧ Call.say titleFailText ∉ reaction_handler cfgOne envSummFail evEyes
    ∧ posts (reaction_handler cfgOne envSummFail evEyes) = [] := by
  refine ⟨rfl, by decide, by decide, by decide⟩

/-- C4 counterexample: a non-success teams-query response yields an absent
result with an empty error log, refuting the claim that non-success
transport responses are logged as errors. -/
theorem c4_nonsuccess_not_logged :
    (envNoTeam.teamsResp "Backend").status = 500
    ∧ errorLogs (get_uuid_for_team envNoTeam "Backend").1 = []
    ∧ (get_uuid_for_team envNoTeam "Backend").2 = none
    ∧ ¬ teams_nonsuccess_logged :=
  ⟨rfl, rfl, rfl, fun hcl => hcl envNoTeam "Backend" (by decide) rfl⟩

/-- C4 amended: get_uuid_for_team returns the first result's identifier on
an HTTP 200 response with the data.teams payload and at least one team, and
an absent result on zero results or a non-success status; a non-success
response is neither raised nor logged — the method silently returns
absent after exactly one teams-query POST. -/
theorem c4_resolve_team_behaviour (env : Env) (tn : String) :
    ((env.teamsResp tn).status = 200 →
        (env.teamsResp tn).payload.hasData = true →
        (env.teamsResp tn).payload.hasTeams = true →
        ∀ (t : TeamNode) (ts : List TeamNode),
          (env.teamsResp tn).payload.nodes = t :: ts →
          (get_uuid_for_team env tn).2 = some t.id)
      ∧ ((env.teamsResp tn).payload.nodes = [] → (get_uuid_for_team env tn).2 = none)
      ∧ ((env.teamsResp tn).status ≠ 200 → (get_uuid_for_team env tn).2 = none)
      ∧ errorLogs (get_uuid_for_team env tn).1 = []
      ∧ (get_uuid_for_team env tn).1 = [Call.post PostKind.teamsQuery] := by
  refine ⟨?_, ?_, ?_, rfl, rfl⟩
  · intro h200 hd ht t ts hn
    simp [get_uuid_for_team, h200, hd, ht, hn]
  · intro hn
    by_cases h200 : (env.teamsResp tn).status = 200
    · simp [get_uuid_for_team, h200, hn]
    · simp [get_uuid_for_team, h200]
  · intro h200
    simp [get_uuid_for_team, h200]

/-- Witness for C4 at a concrete successful resolution. -/
theorem c4_witness :
    (baseEnv.teamsResp "Backend").status = 200
    ∧ (baseEnv.teamsResp "Backend").payload.nodes = [backendNode]
    ∧ (get_uuid_for_team baseEnv "Backend").2 = some backendNode.id :=
  ⟨rfl, rfl,
    (c4_resolve_team_behaviour baseEnv "Backend").1 rfl rfl rfl backendNode [] rfl⟩

/-- C5 evidence: create_issue raises NameError on every submission — here
at a concrete team id, title and description — before any mutation POST or
log, so it never returns the created issue nor a logged failure. -/
theorem c5_create_issue_never_submits :
    create_issue baseEnv (some "team-uuid-1") "Fix login bug" "fix the login bug"
      = ([], PyResult.exn "NameError") := rfl

/-- C6: the rule matcher is first-match-wins — the handler processes
exactly the first configured rule whose reaction equals the event's
reaction name and whose mention equals the actor's mention token, and with
two rules of identical (reaction, mention) but different teams the
first-listed one is selected. -/
theorem c6_rule_matcher_first_match (cfg : Config) (env : Env) (ev : ReactionEvent) :
    reaction_handler cfg env ev =
        reactionAddedLog ev :: (selected_rule cfg ev).elim [] (processRule env ev)
      ∧ ∀ (r₁ r₂ : Rule) (others : List Rule),
          matchesRule ev r₁ = true →
          selected_rule ⟨r₁ :: r₂ :: others⟩ ev = some r₁ := by
  constructor
  · unfold reaction_handler selected_rule
    rw [handleRules_eq_selected]
  · intro r₁ r₂ others h
    unfold selected_rule
    simp [List.find?_cons_of_pos _ h]

/-- Witness for C6: two rules with identical (reaction, mention) and
different teams; the first-listed is selected. -/
theorem c6_witness :
    matchesRule evEyes ruleEyes = true
    ∧ selected_rule ⟨[ruleEyes, ruleEyesFrontend]⟩ evEyes = some ruleEyes :=
  ⟨by decide,
    (c6_rule_matcher_first_match cfgOne baseEnv evEyes).2 ruleEyes ruleEyesFrontend []
      (by decide)⟩

/-- C7: in dry-run mode (DEBUG=true), a matched event with a successful
fetch and summarization issues no tracker POST at all; the orchestrator
logs the would-be issue title instead. -/
theorem c7_dry_run_no_tracker_calls (cfg : Config) (env : Env)
    (ev : ReactionEvent) (r : Rule) (m : SlackMessage) (rest : List SlackMessage)
    (out : String)
    (hsel : selected_rule cfg ev = some r)
    (hdbg : env.debug = "true")
    (hfetch : env.conversations_history ev.channel ev.message_ts = PyResult.ok (m :: rest))
    (hllm : env.agentRun m.text = PyResult.ok out) :
    posts (reaction_handler cfg env ev) = []
      ∧ Call.log LogLevel.debug ("Creating issue with title: " ++ out)
          ∈ reaction_handler cfg env ev := by
  have h := trace_dry cfg env ev r m rest out hsel hdbg hfetch hllm
  constructor
  · rw [h]
    simp [posts, reactionAddedLog, matchedLog]
  · rw [h]
    simp

/-- Witness for C7 in a concrete dry-run. -/
theorem c7_witness :
    selected_rule cfgOne evEyes = some ruleEyes
    ∧ envDry.debug = "true"
    ∧ envDry.conversations_history evEyes.channel evEyes.message_ts
        = PyResult.ok [msgLogin]
    ∧ envDry.agentRun msgLogin.text = PyResult.ok "Fix login bug"
    ∧ posts (reaction_handler cfgOne envDry evEyes) = [] :=
  ⟨by decide, rfl, rfl, rfl,
    (c7_dry_run_no_tracker_calls cfgOne envDry evEyes ruleEyes msgLogin []
      "Fix login bug" (by decide) rfl rfl rfl).1⟩

/-- C8: a matched event whose history lookup returns zero messages aborts
silently: one warning log, no thread reply beyond the acknowledgement, and
no summarization or tracker call. -/
theorem c8_empty_fetch_silent_abort (cfg : Config) (env : Env)
    (ev : ReactionEvent) (r : Rule)
    (hsel : selected_rule cfg ev = some r)
    (hfetch : env.conversations_history ev.channel ev.message_ts = PyResult.ok []) :
    reaction_handler cfg env ev =
        [reactionAddedLog ev, matchedLog ev, Call.say (ackText r), Call.fetchHistory,
         Call.log LogLevel.warning "No messages found for this timestamp."]
      ∧ sayTexts (reaction_handler cfg env ev) = [ackText r]
      ∧ posts (reaction_handler cfg env ev) = []
      ∧ Call.llmRun ∉ reaction_handler cfg env ev
      ∧ warningLogs (reaction_handler cfg env ev)
          = ["No messages found for this timestamp."] := by
  have h := trace_empty_fetch cfg env ev r hsel hfetch
  refine ⟨h, ?_, ?_, ?_, ?_⟩ <;> rw [h]
  · simp [sayTexts, reactionAddedLog, matchedLog]
  · simp [posts, reactionAddedLog, matchedLog]
  · simp [reactionAddedLog, matchedLog]
  · simp [warningLogs, reactionAddedLog, matchedLog]

/-- Witness for C8 at a concrete empty fetch. -/
theorem c8_witness :
    selected_rule cfgOne evEyes = some ruleEyes
    ∧ envEmptyFetch.conversations_history evEyes.channel evEyes.message_ts
        = PyResult.ok []
    ∧ sayTexts (reaction_handler cfgOne envEmptyFetch evEyes) = [ackText ruleEyes] :=
  ⟨by decide, rfl,
    (c8_empty_fetch_silent_abort cfgOne envEmptyFetch evEyes ruleEyes
      (by decide) rfl).2.1⟩

/-- C9: an event matching no configured rule produces zero external calls
and zero thread replies, and no error is logged. -/
theorem c9_no_match_no_action (cfg : Config) (env : Env) (ev : ReactionEvent)
    (h : selected_rule cfg ev = none) :
    externals (reaction_handler cfg env ev) = []
      ∧ sayTexts (reaction_handler cfg env ev) = []
      ∧ errorLogs (reaction_handler cfg env ev) = [] := by
  have htr : reaction_handler cfg env ev = [reactionAddedLog ev] := by
    unfold selected_rule at h
    unfold reaction_handler
    rw [handleRules_eq_selected, h]
    rfl
  rw [htr]
  refine ⟨?_, ?_, ?_⟩ <;> simp [externals, sayTexts, errorLogs, reactionAddedLog]

/-- Witness for C9 at a concrete non-matching event. -/
theorem c9_witness :
    selected_rule cfgOne evOther = none
    ∧ externals (reaction_handler cfgOne baseEnv evOther) = [] :=
  ⟨by decide, (c9_no_match_no_action cfgOne baseEnv evOther (by decide)).1⟩

/-- C10: a matched dry-run event whose fetch and summarization succeed
receives only the initial acknowledgement in the thread — no success or
failure notification follows — and the run ends right after the debug log
of the draft title. -/
theorem c10_dry_run_only_ack_reply (cfg : Config) (env : Env)
    (ev : ReactionEvent) (r : Rule) (m : SlackMessage) (rest : List SlackMessage)
    (out : String)
    (hsel : selected_rule cfg ev = some r)
    (hdbg : env.debug = "true")
    (hfetch : env.conversations_history ev.channel ev.message_ts = PyResult.ok (m :: rest))
    (hllm : env.agentRun m.text = PyResult.ok out) :
    sayTexts (reaction_handler cfg env ev) = [ackText r]
      ∧ reaction_handler cfg env ev =
          [reactionAddedLog ev, matchedLog ev, Call.say (ackText r), Call.fetchHistory,
           Call.log LogLevel.info ("Received body: " ++ m.text), Call.llmRun,
           Call.log LogLevel.info ("Generating issue title with body: " ++ out),
           Call.log LogLevel.debug ("Creating issue with title: " ++ out)] := by
  have h := trace_dry cfg env ev r m rest out hsel hdbg hfetch hllm
  refine ⟨?_, h⟩
  rw [h]
  simp [sayTexts, reactionAddedLog, matchedLog]

/-- Witness for C10 in a concrete dry-run. -/
theorem c10_witness :
    selected_rule cfgOne evEyes = some ruleEyes
    ∧ envDry.debug = "true"
    ∧ envDry.conversations_history evEyes.channel evEyes.message_ts
        = PyResult.ok [msgLogin]
    ∧ envDry.agentRun msgLogin.text = PyResult.ok "Fix login bug"
    ∧ sayTexts (reaction_handler cfgOne envDry evEyes) = [ackText ruleEyes] :=
  ⟨by decide, rfl, rfl, rfl,
    (c10_dry_run_only_ack_reply cfgOne envDry evEyes ruleEyes msgLogin []
      "Fix login bug" (by decide) rfl rfl rfl).1⟩

end SlackReactionTo
